import Mathlib

/-!
# Verification of the `@jamwidgets/solid` adapter (`src/src/index.ts`)

The package wraps nine controller classes from the external `@jamwidgets/core`
library into SolidJS primitives.  Each `createX` primitive

* constructs one controller (`new XController(resolveConfig(options), ...)`),
* creates signals holding the reactive state slice with fixed initial values,
* inside `createEffect`, calls `controller.subscribe(callback)` where the
  callback copies fields of the pushed state into the signals, optionally
  triggers an auto `fetch()`/`record()` call, and registers the returned
  `unsubscribe` with `onCleanup`,
* returns the read accessors plus imperative action methods that delegate to
  controller methods.

We embed each primitive shallowly:

* its state slice, signal record and option record become Lean structures;
* the body of `createX`, of its effect, of the subscription callback and of
  each action method becomes a *trace*: a list of events in source order,
  where an event is either a controller interaction (`newController`,
  `subscribeCall`, `fetchCall`, a delegated method call, ...) or a signal
  write (`sigWrite`);
* applying a trace to a signal record (`applyTrace`) executes exactly the
  signal writes in order, so facts about which traces touch which signals are
  facts about the code;
* the subscription lifecycle is a small machine `Conn`: `subscribe` marks the
  connection live, a controller notification updates the signals only while
  the connection is live, and the unsubscribe returned by
  `controller.subscribe` kills the connection.
-/

/-- Controller status values used by the core controllers; signals start at
`"idle"` (`createSignal<ControllerStatus>("idle")`). -/
inductive ControllerStatus
  | idle
  | loading
  | success
  | error
deriving DecidableEq, Repr

/-- Model of a JavaScript `Error` value carried in the `error` signals. -/
structure JsError where
  message : String
deriving DecidableEq, Repr

/-- Model of the `Record<string, number>` reaction counts object; the empty
object `{}` is the empty list. -/
abbrev ReactionCounts := List (String × Nat)

/-- Model of the core `Comment` type (only fields the adapter passes through
matter). -/
structure Comment where
  authorName : String
  content : String
deriving DecidableEq, Repr

/-- Model of the core `Announcement` type. `dismiss` takes the numeric `id`. -/
structure Announcement where
  id : Nat
  content : String
deriving DecidableEq, Repr

/-- Model of the core `PollWithResults` type. -/
structure PollWithResults where
  question : String
  results : List (String × Nat)
deriving DecidableEq, Repr

/-- Model of the core `FeedbackType` (an opaque string union). -/
abbrev FeedbackType := String

/-- Execute a trace of events over a signal record: events classified as
signal writes by `wr` are applied in order via `app`; all other events leave
the signals untouched. -/
def applyTrace {E W Sig : Type} (wr : E → Option W) (app : W → Sig → Sig) :
    List E → Sig → Sig
  | [], sig => sig
  | e :: es, sig =>
      applyTrace wr app es
        (match wr e with
          | some w => app w sig
          | none => sig)

/-- A subscription connection between a primitive and its controller:
whether the callback is currently registered, plus the signal values. -/
structure Conn (Sig : Type) where
  subscribed : Bool
  sig : Sig
deriving DecidableEq, Repr

/-- A controller push notification: it runs the registered callback (which
updates the signals by `upd`) only while the connection is subscribed. -/
def notifyConn {Sig : Type} (upd : Sig → Sig) (c : Conn Sig) : Conn Sig :=
  if c.subscribed then { c with sig := upd c.sig } else c

/-- Modelled from the spec: the unsubscribe function returned by
`controller.subscribe` lives in the external `@jamwidgets/core` package, not
under `src/`.  Per the spec ("tearing down the subscription on unmount",
"unsubscribe on teardown") it removes the registered listener, so the
connection is no longer subscribed. -/
def unsubscribeConn {Sig : Type} (c : Conn Sig) : Conn Sig :=
  { c with subscribed := false }

/-- Run an effect body over a connection: the `controller.subscribe` event
(`subE`) registers the callback, the auto `fetch()`/`record()` event
(`fetchE`) makes the controller push a notification (updating signals by
`upd` only if subscribed); other events do not touch the connection. -/
def runEffectSteps {E Sig : Type} [DecidableEq E] (subE fetchE : E)
    (upd : Sig → Sig) : List E → Conn Sig → Conn Sig
  | [], c => c
  | e :: es, c =>
      runEffectSteps subE fetchE upd es
        (if e = subE then { c with subscribed := true }
         else if e = fetchE then notifyConn upd c
         else c)

/-- The JavaScript guard `options.autoFetch !== false` (and
`options.autoRecord !== false`): every value except the literal `false`
passes, in particular an omitted option. -/
def autoEnabled : Option Bool → Bool
  | some false => false
  | _ => true

/-! ## createSubscribe (index.ts lines 132-159) -/

namespace Subscribe

/-- Fields of the core `SubscribeState` read by the callback. -/
structure State where
  status : ControllerStatus
  message : Option String
  error : Option JsError
deriving DecidableEq, Repr

/-- The signal record of `createSubscribe`. -/
structure Signals where
  status : ControllerStatus
  message : Option String
  error : Option JsError
deriving DecidableEq, Repr

/-- A write to one of the signals of `createSubscribe`. -/
inductive Write
  | status (v : ControllerStatus)
  | message (v : Option String)
  | error (v : Option JsError)
deriving DecidableEq, Repr

/-- Events of `createSubscribe`: controller construction, the
`controller.subscribe` call, the `onCleanup(unsubscribe)` registration, the
delegated controller method calls, and signal writes. -/
inductive Event
  | newController
  | subscribeCall
  | cleanupRegistered
  | submitCall (email : String)
  | resetCall
  | sigWrite (w : Write)
deriving DecidableEq, Repr

def Event.writeOf : Event → Option Write
  | .sigWrite w => some w
  | _ => none

def Write.app : Write → Signals → Signals
  | .status v, s => { s with status := v }
  | .message v, s => { s with message := v }
  | .error v, s => { s with error := v }

def apply (t : List Event) (s : Signals) : Signals :=
  applyTrace Event.writeOf Write.app t s

/-- Initial signal values (lines 133-135): `"idle"`, `null`, `null`. -/
def init : Signals :=
  { status := .idle, message := none, error := none }

/-- Body of `createSubscribe` outside the effect (lines 137-138): one
controller is constructed. -/
def setup : List Event :=
  [.newController]

/-- The subscription callback (lines 141-145): `setStatus(state.status)`,
`setMessage(state.message)`, `setError(state.error)`. -/
def callback (state : State) : List Event :=
  [.sigWrite (.status state.status),
   .sigWrite (.message state.message),
   .sigWrite (.error state.error)]

/-- The effect body (lines 140-148): subscribe, then register the
unsubscribe for cleanup. -/
def effectBody : List Event :=
  [.subscribeCall, .cleanupRegistered]

/-- The returned `subscribe` action (lines 150-152):
`await controller.submit(email)`. -/
def subscribe (email : String) : List Event :=
  [.submitCall email]

/-- The returned `reset` action (lines 154-156): `controller.reset()`. -/
def reset : List Event :=
  [.resetCall]

end Subscribe

/-! ## createForm (index.ts lines 195-222) -/

namespace Form

/-- Model of the submitted `Record<string, unknown>` form data. -/
abbrev FormData := List (String × String)

structure State where
  status : ControllerStatus
  message : Option String
  error : Option JsError
deriving DecidableEq, Repr

structure Signals where
  status : ControllerStatus
  message : Option String
  error : Option JsError
deriving DecidableEq, Repr

inductive Write
  | status (v : ControllerStatus)
  | message (v : Option String)
  | error (v : Option JsError)
deriving DecidableEq, Repr

inductive Event
  | newController
  | subscribeCall
  | cleanupRegistered
  | submitCall (data : FormData)
  | resetCall
  | sigWrite (w : Write)
deriving DecidableEq, Repr

def Event.writeOf : Event → Option Write
  | .sigWrite w => some w
  | _ => none

def Write.app : Write → Signals → Signals
  | .status v, s => { s with status := v }
  | .message v, s => { s with message := v }
  | .error v, s => { s with error := v }

def apply (t : List Event) (s : Signals) : Signals :=
  applyTrace Event.writeOf Write.app t s

/-- Initial signal values (lines 196-198). -/
def init : Signals :=
  { status := .idle, message := none, error := none }

/-- Lines 200-201: one `FormController` is constructed. -/
def setup : List Event :=
  [.newController]

/-- The subscription callback (lines 204-208). -/
def callback (state : State) : List Event :=
  [.sigWrite (.status state.status),
   .sigWrite (.message state.message),
   .sigWrite (.error state.error)]

/-- The effect body (lines 203-211). -/
def effectBody : List Event :=
  [.subscribeCall, .cleanupRegistered]

/-- The returned `submit` action (lines 213-215):
`await controller.submit(data)`. -/
def submit (data : FormData) : List Event :=
  [.submitCall data]

/-- The returned `reset` action (lines 217-219). -/
def reset : List Event :=
  [.resetCall]

end Form

/-! ## createReactions (index.ts lines 259-297) -/

namespace Reactions

/-- The options read by `createReactions`: `contentId` and the optional
`autoFetch` flag (absent = `undefined` = `none`). -/
structure Options where
  contentId : String
  autoFetch : Option Bool
deriving DecidableEq, Repr

structure State where
  counts : ReactionCounts
  userReactions : List String
  status : ControllerStatus
  error : Option JsError
deriving DecidableEq, Repr

structure Signals where
  counts : ReactionCounts
  userReactions : List String
  status : ControllerStatus
  error : Option JsError
deriving DecidableEq, Repr

inductive Write
  | counts (v : ReactionCounts)
  | userReactions (v : List String)
  | status (v : ControllerStatus)
  | error (v : Option JsError)
deriving DecidableEq, Repr

inductive Event
  | newController
  | subscribeCall
  | fetchCall
  | cleanupRegistered
  | addCall (type : String)
  | removeCall (type : String)
  | sigWrite (w : Write)
deriving DecidableEq, Repr

def Event.writeOf : Event → Option Write
  | .sigWrite w => some w
  | _ => none

def Write.app : Write → Signals → Signals
  | .counts v, s => { s with counts := v }
  | .userReactions v, s => { s with userReactions := v }
  | .status v, s => { s with status := v }
  | .error v, s => { s with error := v }

def apply (t : List Event) (s : Signals) : Signals :=
  applyTrace Event.writeOf Write.app t s

/-- Initial signal values (lines 260-263): `{}`, `[]`, `"idle"`, `null`. -/
def init : Signals :=
  { counts := [], userReactions := [], status := .idle, error := none }

/-- Lines 265-266: one `ReactionsController` is constructed. -/
def setup : List Event :=
  [.newController]

/-- The subscription callback (lines 269-274). -/
def callback (state : State) : List Event :=
  [.sigWrite (.counts state.counts),
   .sigWrite (.userReactions state.userReactions),
   .sigWrite (.status state.status),
   .sigWrite (.error state.error)]

/-- The effect body (lines 268-282): subscribe, then
`if (options.autoFetch !== false) controller.fetch()`, then register the
unsubscribe for cleanup. -/
def effectBody (options : Options) : List Event :=
  [.subscribeCall]
    ++ (if autoEnabled options.autoFetch then [.fetchCall] else [])
    ++ [.cleanupRegistered]

/-- The returned `addReaction` action (lines 284-286):
`await controller.add(type)`. -/
def addReaction (type : String) : List Event :=
  [.addCall type]

/-- The returned `removeReaction` action (lines 288-290):
`await controller.remove(type)`. -/
def removeReaction (type : String) : List Event :=
  [.removeCall type]

/-- The returned `refresh` action (lines 292-294):
`await controller.fetch()`. -/
def refresh : List Event :=
  [.fetchCall]

end Reactions

/-! ## createComments (index.ts lines 340-372) -/

namespace Comments

structure Options where
  contentId : String
  autoFetch : Option Bool
deriving DecidableEq, Repr

/-- The optional third argument of `postComment`. -/
structure PostOpts where
  authorEmail : Option String
  parentId : Option String
deriving DecidableEq, Repr

structure State where
  comments : List Comment
  status : ControllerStatus
  error : Option JsError
deriving DecidableEq, Repr

structure Signals where
  comments : List Comment
  status : ControllerStatus
  error : Option JsError
deriving DecidableEq, Repr

inductive Write
  | comments (v : List Comment)
  | status (v : ControllerStatus)
  | error (v : Option JsError)
deriving DecidableEq, Repr

inductive Event
  | newController
  | subscribeCall
  | fetchCall
  | cleanupRegistered
  | postCall (author : String) (content : String) (opts : Option PostOpts)
  | sigWrite (w : Write)
deriving DecidableEq, Repr

def Event.writeOf : Event → Option Write
  | .sigWrite w => some w
  | _ => none

def Write.app : Write → Signals → Signals
  | .comments v, s => { s with comments := v }
  | .status v, s => { s with status := v }
  | .error v, s => { s with error := v }

def apply (t : List Event) (s : Signals) : Signals :=
  applyTrace Event.writeOf Write.app t s

/-- Initial signal values (lines 341-343): `[]`, `"idle"`, `null`. -/
def init : Signals :=
  { comments := [], status := .idle, error := none }

/-- Lines 345-346: one `CommentsController` is constructed. -/
def setup : List Event :=
  [.newController]

/-- The subscription callback (lines 349-353). -/
def callback (state : State) : List Event :=
  [.sigWrite (.comments state.comments),
   .sigWrite (.status state.status),
   .sigWrite (.error state.error)]

/-- The effect body (lines 348-361). -/
def effectBody (options : Options) : List Event :=
  [.subscribeCall]
    ++ (if autoEnabled options.autoFetch then [.fetchCall] else [])
    ++ [.cleanupRegistered]

/-- The returned `postComment` action (lines 363-365):
`await controller.post(author, content, options)`. -/
def postComment (author : String) (content : String) (opts : Option PostOpts) :
    List Event :=
  [.postCall author content opts]

/-- The returned `refresh` action (lines 367-369). -/
def refresh : List Event :=
  [.fetchCall]

end Comments

/-! ## createWaitlist (index.ts lines 400-429) -/

namespace Waitlist

/-- The optional second argument of `join`. -/
structure JoinOpts where
  name : Option String
  source : Option String
deriving DecidableEq, Repr

structure State where
  status : ControllerStatus
  message : Option String
  position : Option Nat
  error : Option JsError
deriving DecidableEq, Repr

structure Signals where
  status : ControllerStatus
  message : Option String
  position : Option Nat
  error : Option JsError
deriving DecidableEq, Repr

inductive Write
  | status (v : ControllerStatus)
  | message (v : Option String)
  | position (v : Option Nat)
  | error (v : Option JsError)
deriving DecidableEq, Repr

inductive Event
  | newController
  | subscribeCall
  | cleanupRegistered
  | joinCall (email : String) (opts : Option JoinOpts)
  | resetCall
  | sigWrite (w : Write)
deriving DecidableEq, Repr

def Event.writeOf : Event → Option Write
  | .sigWrite w => some w
  | _ => none

def Write.app : Write → Signals → Signals
  | .status v, s => { s with status := v }
  | .message v, s => { s with message := v }
  | .position v, s => { s with position := v }
  | .error v, s => { s with error := v }

def apply (t : List Event) (s : Signals) : Signals :=
  applyTrace Event.writeOf Write.app t s

/-- Initial signal values (lines 401-404): `"idle"`, `null`, `null`,
`null`. -/
def init : Signals :=
  { status := .idle, message := none, position := none, error := none }

/-- Lines 406-407: one `WaitlistController` is constructed. -/
def setup : List Event :=
  [.newController]

/-- The subscription callback (lines 410-415). -/
def callback (state : State) : List Event :=
  [.sigWrite (.status state.status),
   .sigWrite (.message state.message),
   .sigWrite (.position state.position),
   .sigWrite (.error state.error)]

/-- The effect body (lines 409-418). -/
def effectBody : List Event :=
  [.subscribeCall, .cleanupRegistered]

/-- The returned `join` action (lines 420-422):
`await controller.join(email, opts)`. -/
def join (email : String) (opts : Option JoinOpts) : List Event :=
  [.joinCall email opts]

/-- The returned `reset` action (lines 424-426). -/
def reset : List Event :=
  [.resetCall]

end Waitlist

/-! ## createViews (index.ts lines 463-497) -/

namespace Views

structure Options where
  pageId : String
  autoRecord : Option Bool
deriving DecidableEq, Repr

structure State where
  views : Nat
  uniqueVisitors : Nat
  status : ControllerStatus
  error : Option JsError
deriving DecidableEq, Repr

structure Signals where
  views : Nat
  uniqueVisitors : Nat
  status : ControllerStatus
  error : Option JsError
deriving DecidableEq, Repr

inductive Write
  | views (v : Nat)
  | uniqueVisitors (v : Nat)
  | status (v : ControllerStatus)
  | error (v : Option JsError)
deriving DecidableEq, Repr

inductive Event
  | newController
  | subscribeCall
  | recordCall
  | fetchCall
  | cleanupRegistered
  | sigWrite (w : Write)
deriving DecidableEq, Repr

def Event.writeOf : Event → Option Write
  | .sigWrite w => some w
  | _ => none

def Write.app : Write → Signals → Signals
  | .views v, s => { s with views := v }
  | .uniqueVisitors v, s => { s with uniqueVisitors := v }
  | .status v, s => { s with status := v }
  | .error v, s => { s with error := v }

def apply (t : List Event) (s : Signals) : Signals :=
  applyTrace Event.writeOf Write.app t s

/-- Initial signal values (lines 464-467): `0`, `0`, `"idle"`, `null`. -/
def init : Signals :=
  { views := 0, uniqueVisitors := 0, status := .idle, error := none }

/-- Lines 469-470: one `ViewCountsController` is constructed. -/
def setup : List Event :=
  [.newController]

/-- The subscription callback (lines 473-478). -/
def callback (state : State) : List Event :=
  [.sigWrite (.views state.views),
   .sigWrite (.uniqueVisitors state.uniqueVisitors),
   .sigWrite (.status state.status),
   .sigWrite (.error state.error)]

/-- The effect body (lines 472-486): subscribe, then
`if (options.autoRecord !== false) controller.record()`, then register the
unsubscribe for cleanup. -/
def effectBody (options : Options) : List Event :=
  [.subscribeCall]
    ++ (if autoEnabled options.autoRecord then [.recordCall] else [])
    ++ [.cleanupRegistered]

/-- The returned `record` action (lines 488-490):
`await controller.record()`. -/
def record : List Event :=
  [.recordCall]

/-- The returned `refresh` action (lines 492-494):
`await controller.fetch()`. -/
def refresh : List Event :=
  [.fetchCall]

end Views

/-! ## createFeedback (index.ts lines 525-552) -/

namespace Feedback

/-- The optional third argument of `submit`. -/
structure SubmitOpts where
  email : Option String
  pageUrl : Option String
deriving DecidableEq, Repr

structure State where
  status : ControllerStatus
  message : Option String
  error : Option JsError
deriving DecidableEq, Repr

structure Signals where
  status : ControllerStatus
  message : Option String
  error : Option JsError
deriving DecidableEq, Repr

inductive Write
  | status (v : ControllerStatus)
  | message (v : Option String)
  | error (v : Option JsError)
deriving DecidableEq, Repr

inductive Event
  | newController
  | subscribeCall
  | cleanupRegistered
  | submitCall (type : FeedbackType) (content : String) (opts : Option SubmitOpts)
  | resetCall
  | sigWrite (w : Write)
deriving DecidableEq, Repr

def Event.writeOf : Event → Option Write
  | .sigWrite w => some w
  | _ => none

def Write.app : Write → Signals → Signals
  | .status v, s => { s with status := v }
  | .message v, s => { s with message := v }
  | .error v, s => { s with error := v }

def apply (t : List Event) (s : Signals) : Signals :=
  applyTrace Event.writeOf Write.app t s

/-- Initial signal values (lines 526-528). -/
def init : Signals :=
  { status := .idle, message := none, error := none }

/-- Lines 530-531: one `FeedbackController` is constructed. -/
def setup : List Event :=
  [.newController]

/-- The subscription callback (lines 534-538). -/
def callback (state : State) : List Event :=
  [.sigWrite (.status state.status),
   .sigWrite (.message state.message),
   .sigWrite (.error state.error)]

/-- The effect body (lines 533-541). -/
def effectBody : List Event :=
  [.subscribeCall, .cleanupRegistered]

/-- The returned `submit` action (lines 543-545):
`await controller.submit(type, content, opts)`. -/
def submit (type : FeedbackType) (content : String) (opts : Option SubmitOpts) :
    List Event :=
  [.submitCall type content opts]

/-- The returned `reset` action (lines 547-549). -/
def reset : List Event :=
  [.resetCall]

end Feedback

/-! ## createPoll (index.ts lines 598-632) -/

namespace Poll

structure Options where
  slug : String
  autoFetch : Option Bool
deriving DecidableEq, Repr

/-- The slice of the core `PollController` the adapter reads directly:
`controller.hasVoted()` returns whatever the controller currently answers. -/
structure Controller where
  hasVotedAnswer : Bool
deriving DecidableEq, Repr

/-- The controller method `hasVoted()` of the core `PollController`. -/
def Controller.hasVoted (c : Controller) : Bool :=
  c.hasVotedAnswer

structure State where
  poll : Option PollWithResults
  status : ControllerStatus
  error : Option JsError
deriving DecidableEq, Repr

structure Signals where
  poll : Option PollWithResults
  status : ControllerStatus
  error : Option JsError
deriving DecidableEq, Repr

inductive Write
  | poll (v : Option PollWithResults)
  | status (v : ControllerStatus)
  | error (v : Option JsError)
deriving DecidableEq, Repr

inductive Event
  | newController
  | subscribeCall
  | fetchCall
  | cleanupRegistered
  | voteCall (selectedOptions : List String)
  | hasVotedCall
  | sigWrite (w : Write)
deriving DecidableEq, Repr

def Event.writeOf : Event → Option Write
  | .sigWrite w => some w
  | _ => none

def Write.app : Write → Signals → Signals
  | .poll v, s => { s with poll := v }
  | .status v, s => { s with status := v }
  | .error v, s => { s with error := v }

def apply (t : List Event) (s : Signals) : Signals :=
  applyTrace Event.writeOf Write.app t s

/-- Initial signal values (lines 599-601): `null`, `"idle"`, `null`. -/
def init : Signals :=
  { poll := none, status := .idle, error := none }

/-- Lines 603-604: one `PollController` is constructed. -/
def setup : List Event :=
  [.newController]

/-- The subscription callback (lines 607-611). -/
def callback (state : State) : List Event :=
  [.sigWrite (.poll state.poll),
   .sigWrite (.status state.status),
   .sigWrite (.error state.error)]

/-- The effect body (lines 606-619). -/
def effectBody (options : Options) : List Event :=
  [.subscribeCall]
    ++ (if autoEnabled options.autoFetch then [.fetchCall] else [])
    ++ [.cleanupRegistered]

/-- The returned `vote` action (lines 621-623):
`await controller.vote(selectedOptions)`. -/
def vote (selectedOptions : List String) : List Event :=
  [.voteCall selectedOptions]

/-- The returned `refresh` action (lines 625-627). -/
def refresh : List Event :=
  [.fetchCall]

/-- The returned `hasVoted` accessor (line 629):
`() => controller.hasVoted()`. -/
def hasVoted (c : Controller) : Bool :=
  c.hasVoted

end Poll

/-! ## createAnnouncements (index.ts lines 671-704) -/

namespace Announcements

structure Options where
  autoFetch : Option Bool
deriving DecidableEq, Repr

structure State where
  announcements : List Announcement
  status : ControllerStatus
  error : Option JsError
deriving DecidableEq, Repr

/-- The slice of the core `AnnouncementsController` read by the callback:
its current state and the set of announcement ids the user has dismissed. -/
structure Controller where
  state : State
  dismissed : List Nat
deriving DecidableEq, Repr

/-- Modelled from the spec: `getVisibleAnnouncements` is a method of the core
`AnnouncementsController` (in `@jamwidgets/core`, not under `src/`).  Per the
spec ("visible announcements filtering") and the source comment "Only show
non-dismissed announcements", it returns the announcements of the current
state that have not been dismissed. -/
def Controller.getVisibleAnnouncements (c : Controller) : List Announcement :=
  c.state.announcements.filter (fun a => !c.dismissed.contains a.id)

structure Signals where
  announcements : List Announcement
  status : ControllerStatus
  error : Option JsError
deriving DecidableEq, Repr

inductive Write
  | announcements (v : List Announcement)
  | status (v : ControllerStatus)
  | error (v : Option JsError)
deriving DecidableEq, Repr

inductive Event
  | newController
  | subscribeCall
  | fetchCall
  | cleanupRegistered
  | dismissCall (announcementId : Nat)
  | sigWrite (w : Write)
deriving DecidableEq, Repr

def Event.writeOf : Event → Option Write
  | .sigWrite w => some w
  | _ => none

def Write.app : Write → Signals → Signals
  | .announcements v, s => { s with announcements := v }
  | .status v, s => { s with status := v }
  | .error v, s => { s with error := v }

def apply (t : List Event) (s : Signals) : Signals :=
  applyTrace Event.writeOf Write.app t s

/-- Initial signal values (lines 672-674): `[]`, `"idle"`, `null`. -/
def init : Signals :=
  { announcements := [], status := .idle, error := none }

/-- Lines 676-677: one `AnnouncementsController` is constructed. -/
def setup : List Event :=
  [.newController]

/-- The subscription callback (lines 680-685):
`setAnnouncements(controller.getVisibleAnnouncements())`,
`setStatus(state.status)`, `setError(state.error)` — the announcements
signal is filled from the controller, not from `state.announcements`. -/
def callback (c : Controller) (state : State) : List Event :=
  [.sigWrite (.announcements c.getVisibleAnnouncements),
   .sigWrite (.status state.status),
   .sigWrite (.error state.error)]

/-- The effect body (lines 679-693). -/
def effectBody (options : Options) : List Event :=
  [.subscribeCall]
    ++ (if autoEnabled options.autoFetch then [.fetchCall] else [])
    ++ [.cleanupRegistered]

/-- The returned `dismiss` action (lines 695-697):
`await controller.dismiss(announcementId)`. -/
def dismiss (announcementId : Nat) : List Event :=
  [.dismissCall announcementId]

/-- The returned `refresh` action (lines 699-701). -/
def refresh : List Event :=
  [.fetchCall]

end Announcements

/-! ## Module re-exports (index.ts lines 87-94) -/

/-- The members of `@jamwidgets/core` re-exported by the adapter, with their
types abstract. -/
structure CoreModule (A B C D E F : Type) where
  fetchPosts : A
  fetchPost : B
  getConfigFromMeta : C
  resolveConfig : D
  DEFAULT_ENDPOINT : E
  API_PATH : F

/-- The corresponding exported names of `@jamwidgets/solid`. -/
structure SolidModuleExports (A B C D E F : Type) where
  fetchPosts : A
  fetchPost : B
  getConfigFromMeta : C
  resolveConfig : D
  DEFAULT_ENDPOINT : E
  API_PATH : F

/-- The re-export block
`export { fetchPosts, fetchPost, getConfigFromMeta, resolveConfig,
DEFAULT_ENDPOINT, API_PATH } from "@jamwidgets/core"` (lines 87-94): each
exported binding is the core binding itself. -/
def solidReExports {A B C D E F : Type} (core : CoreModule A B C D E F) :
    SolidModuleExports A B C D E F :=
  { fetchPosts := core.fetchPosts
    fetchPost := core.fetchPost
    getConfigFromMeta := core.getConfigFromMeta
    resolveConfig := core.resolveConfig
    DEFAULT_ENDPOINT := core.DEFAULT_ENDPOINT
    API_PATH := core.API_PATH }

/-! ## Claims -/

/-- C1, as the claim states it, is false at a concrete input: in
`createAnnouncements` the subscription callback does not copy the
`announcements` field of the notified state into the announcements signal.
With a controller holding one announcement (id 1) that the user has
dismissed, after the notification the announcements accessor yields `[]`,
not the state's `announcements` field. -/
theorem c1_announcements_not_raw_copy :
    (Announcements.apply
        (Announcements.callback
          { state :=
              { announcements := [{ id := 1, content := "hello" }],
                status := .success, error := none },
            dismissed := [1] }
          { announcements := [{ id := 1, content := "hello" }],
            status := .success, error := none })
        Announcements.init).announcements
      ≠ [{ id := 1, content := "hello" }] := by
  decide

/-- C1 (amended): for every primitive except the announcements list of
`createAnnouncements`, and for every state notification pushed by the
controller, the subscription callback copies each field of the notified
state into the corresponding signal, so that immediately after the
notification every returned accessor yields exactly the corresponding field
of the last notified state; in `createAnnouncements` the status and error
fields are copied likewise, while the announcements signal is set to
`controller.getVisibleAnnouncements()`. -/
theorem c1_callback_copies_fields :
    (∀ (st : Subscribe.State) (s : Subscribe.Signals),
        Subscribe.apply (Subscribe.callback st) s
          = { status := st.status, message := st.message, error := st.error })
    ∧ (∀ (st : Form.State) (s : Form.Signals),
        Form.apply (Form.callback st) s
          = { status := st.status, message := st.message, error := st.error })
    ∧ (∀ (st : Reactions.State) (s : Reactions.Signals),
        Reactions.apply (Reactions.callback st) s
          = { counts := st.counts, userReactions := st.userReactions,
              status := st.status, error := st.error })
    ∧ (∀ (st : Comments.State) (s : Comments.Signals),
        Comments.apply (Comments.callback st) s
          = { comments := st.comments, status := st.status, error := st.error })
    ∧ (∀ (st : Waitlist.State) (s : Waitlist.Signals),
        Waitlist.apply (Waitlist.callback st) s
          = { status := st.status, message := st.message,
              position := st.position, error := st.error })
    ∧ (∀ (st : Views.State) (s : Views.Signals),
        Views.apply (Views.callback st) s
          = { views := st.views, uniqueVisitors := st.uniqueVisitors,
              status := st.status, error := st.error })
    ∧ (∀ (st : Feedback.State) (s : Feedback.Signals),
        Feedback.apply (Feedback.callback st) s
          = { status := st.status, message := st.message, error := st.error })
    ∧ (∀ (st : Poll.State) (s : Poll.Signals),
        Poll.apply (Poll.callback st) s
          = { poll := st.poll, status := st.status, error := st.error })
    ∧ (∀ (c : Announcements.Controller) (st : Announcements.State)
          (s : Announcements.Signals),
        Announcements.apply (Announcements.callback c st) s
          = { announcements := c.getVisibleAnnouncements,
              status := st.status, error := st.error }) :=
  ⟨fun _ _ => rfl, fun _ _ => rfl, fun _ _ => rfl, fun _ _ => rfl,
   fun _ _ => rfl, fun _ _ => rfl, fun _ _ => rfl, fun _ _ => rfl,
   fun _ _ _ => rfl⟩

/-- C2: for every call of an auto-fetching primitive (`createReactions`,
`createComments`, `createPoll`, `createAnnouncements`) the mount effect
calls `controller.fetch()` if and only if `options.autoFetch` is not
`false` (an omitted `autoFetch` is `none`, hence fetches); for every call of
`createViews` the mount effect calls `controller.record()` if and only if
`options.autoRecord` is not `false`. -/
theorem c2_auto_effect_iff :
    (∀ o : Reactions.Options,
        Reactions.Event.fetchCall ∈ Reactions.effectBody o
          ↔ o.autoFetch ≠ some false)
    ∧ (∀ o : Comments.Options,
        Comments.Event.fetchCall ∈ Comments.effectBody o
          ↔ o.autoFetch ≠ some false)
    ∧ (∀ o : Poll.Options,
        Poll.Event.fetchCall ∈ Poll.effectBody o
          ↔ o.autoFetch ≠ some false)
    ∧ (∀ o : Announcements.Options,
        Announcements.Event.fetchCall ∈ Announcements.effectBody o
          ↔ o.autoFetch ≠ some false)
    ∧ (∀ o : Views.Options,
        Views.Event.recordCall ∈ Views.effectBody o
          ↔ o.autoRecord ≠ some false) := by
  refine ⟨?_, ?_, ?_, ?_, ?_⟩
  · rintro ⟨cid, _ | b⟩
    · simp [Reactions.effectBody, autoEnabled]
    · cases b <;> simp [Reactions.effectBody, autoEnabled]
  · rintro ⟨cid, _ | b⟩
    · simp [Comments.effectBody, autoEnabled]
    · cases b <;> simp [Comments.effectBody, autoEnabled]
  · rintro ⟨slug, _ | b⟩
    · simp [Poll.effectBody, autoEnabled]
    · cases b <;> simp [Poll.effectBody, autoEnabled]
  · rintro ⟨_ | b⟩
    · simp [Announcements.effectBody, autoEnabled]
    · cases b <;> simp [Announcements.effectBody, autoEnabled]
  · rintro ⟨pid, _ | b⟩
    · simp [Views.effectBody, autoEnabled]
    · cases b <;> simp [Views.effectBody, autoEnabled]

/-- Witness for C2 at concrete inputs: with `autoFetch` omitted the effect
of `createReactions` fetches, and with `autoRecord := false` the effect of
`createViews` does not record. -/
theorem c2_auto_effect_iff_witness :
    Reactions.Event.fetchCall
        ∈ Reactions.effectBody { contentId := "post", autoFetch := none }
      ∧ Views.Event.recordCall
          ∉ Views.effectBody { pageId := "page", autoRecord := some false } :=
  ⟨(c2_auto_effect_iff.1 { contentId := "post", autoFetch := none }).mpr
      (by decide),
   fun h =>
     ((c2_auto_effect_iff.2.2.2.2
        { pageId := "page", autoRecord := some false }).mp h) (by decide)⟩

/-- C3: every call of every primitive constructs exactly one controller, and
each run of the primitive's effect performs exactly one
`controller.subscribe` call and registers exactly one unsubscribe for
cleanup (and constructs no further controller); the primitive therefore
never holds more than this single subscribe/unsubscribe pair per run. -/
theorem c3_single_subscription_pair :
    (Subscribe.setup.count .newController = 1
      ∧ Subscribe.effectBody.count .subscribeCall = 1
      ∧ Subscribe.effectBody.count .cleanupRegistered = 1
      ∧ Subscribe.effectBody.count .newController = 0)
    ∧ (Form.setup.count .newController = 1
      ∧ Form.effectBody.count .subscribeCall = 1
      ∧ Form.effectBody.count .cleanupRegistered = 1
      ∧ Form.effectBody.count .newController = 0)
    ∧ (Reactions.setup.count .newController = 1
      ∧ ∀ o : Reactions.Options,
          (Reactions.effectBody o).count .subscribeCall = 1
          ∧ (Reactions.effectBody o).count .cleanupRegistered = 1
          ∧ (Reactions.effectBody o).count .newController = 0)
    ∧ (Comments.setup.count .newController = 1
      ∧ ∀ o : Comments.Options,
          (Comments.effectBody o).count .subscribeCall = 1
          ∧ (Comments.effectBody o).count .cleanupRegistered = 1
          ∧ (Comments.effectBody o).count .newController = 0)
    ∧ (Waitlist.setup.count .newController = 1
      ∧ Waitlist.effectBody.count .subscribeCall = 1
      ∧ Waitlist.effectBody.count .cleanupRegistered = 1
      ∧ Waitlist.effectBody.count .newController = 0)
    ∧ (Views.setup.count .newController = 1
      ∧ ∀ o : Views.Options,
          (Views.effectBody o).count .subscribeCall = 1
          ∧ (Views.effectBody o).count .cleanupRegistered = 1
          ∧ (Views.effectBody o).count .newController = 0)
    ∧ (Feedback.setup.count .newController = 1
      ∧ Feedback.effectBody.count .subscribeCall = 1
      ∧ Feedback.effectBody.count .cleanupRegistered = 1
      ∧ Feedback.effectBody.count .newController = 0)
    ∧ (Poll.setup.count .newController = 1
      ∧ ∀ o : Poll.Options,
          (Poll.effectBody o).count .subscribeCall = 1
          ∧ (Poll.effectBody o).count .cleanupRegistered = 1
          ∧ (Poll.effectBody o).count .newController = 0)
    ∧ (Announcements.setup.count .newController = 1
      ∧ ∀ o : Announcements.Options,
          (Announcements.effectBody o).count .subscribeCall = 1
          ∧ (Announcements.effectBody o).count .cleanupRegistered = 1
          ∧ (Announcements.effectBody o).count .newController = 0) := by
  refine ⟨by decide, by decide, ⟨by decide, ?_⟩, ⟨by decide, ?_⟩, by decide,
    ⟨by decide, ?_⟩, by decide, ⟨by decide, ?_⟩, ⟨by decide, ?_⟩⟩
  · rintro ⟨cid, _ | b⟩
    · simp [Reactions.effectBody, autoEnabled, List.count_cons, List.count_nil]
    · cases b <;>
        simp [Reactions.effectBody, autoEnabled, List.count_cons,
          List.count_nil]
  · rintro ⟨cid, _ | b⟩
    · simp [Comments.effectBody, autoEnabled, List.count_cons, List.count_nil]
    · cases b <;>
        simp [Comments.effectBody, autoEnabled, List.count_cons,
          List.count_nil]
  · rintro ⟨pid, _ | b⟩
    · simp [Views.effectBody, autoEnabled, List.count_cons, List.count_nil]
    · cases b <;>
        simp [Views.effectBody, autoEnabled, List.count_cons, List.count_nil]
  · rintro ⟨slug, _ | b⟩
    · simp [Poll.effectBody, autoEnabled, List.count_cons, List.count_nil]
    · cases b <;>
        simp [Poll.effectBody, autoEnabled, List.count_cons, List.count_nil]
  · rintro ⟨_ | b⟩
    · simp [Announcements.effectBody, autoEnabled, List.count_cons,
        List.count_nil]
    · cases b <;>
        simp [Announcements.effectBody, autoEnabled, List.count_cons,
          List.count_nil]

/-- C4: each primitive's effect registers the unsubscribe returned by
`controller.subscribe` for cleanup, and invoking that unsubscribe leaves the
connection unsubscribed, so after teardown no further controller
notification updates its signals. -/
theorem c4_teardown_unsubscribes :
    (∀ (Sig : Type) (upd : Sig → Sig) (c : Conn Sig),
        (unsubscribeConn c).subscribed = false
        ∧ notifyConn upd (unsubscribeConn c) = unsubscribeConn c)
    ∧ Subscribe.Event.cleanupRegistered ∈ Subscribe.effectBody
    ∧ Form.Event.cleanupRegistered ∈ Form.effectBody
    ∧ (∀ o : Reactions.Options,
        Reactions.Event.cleanupRegistered ∈ Reactions.effectBody o)
    ∧ (∀ o : Comments.Options,
        Comments.Event.cleanupRegistered ∈ Comments.effectBody o)
    ∧ Waitlist.Event.cleanupRegistered ∈ Waitlist.effectBody
    ∧ (∀ o : Views.Options,
        Views.Event.cleanupRegistered ∈ Views.effectBody o)
    ∧ Feedback.Event.cleanupRegistered ∈ Feedback.effectBody
    ∧ (∀ o : Poll.Options,
        Poll.Event.cleanupRegistered ∈ Poll.effectBody o)
    ∧ (∀ o : Announcements.Options,
        Announcements.Event.cleanupRegistered ∈ Announcements.effectBody o) := by
  refine ⟨fun Sig upd c => ⟨rfl, ?_⟩, by decide, by decide, ?_, ?_, by decide,
    ?_, by decide, ?_, ?_⟩
  · simp [notifyConn, unsubscribeConn]
  · rintro ⟨cid, af⟩
    simp [Reactions.effectBody]
  · rintro ⟨cid, af⟩
    simp [Comments.effectBody]
  · rintro ⟨pid, ar⟩
    simp [Views.effectBody]
  · rintro ⟨slug, af⟩
    simp [Poll.effectBody]
  · rintro ⟨af⟩
    simp [Announcements.effectBody]

/-- C5: in `createAnnouncements`, on every controller notification the
announcements signal is set to `controller.getVisibleAnnouncements()` (not
the raw `announcements` field of the notified state), so every announcement
the accessor exposes is one the controller has not recorded as dismissed. -/
theorem c5_visible_announcements :
    ∀ (c : Announcements.Controller) (st : Announcements.State)
      (s : Announcements.Signals),
      (Announcements.apply (Announcements.callback c st) s).announcements
          = c.getVisibleAnnouncements
      ∧ ∀ a ∈ (Announcements.apply
            (Announcements.callback c st) s).announcements,
          c.dismissed.contains a.id = false := by
  intro c st s
  refine ⟨rfl, ?_⟩
  intro a ha
  have h1 : a ∈ c.state.announcements.filter
      (fun a => !c.dismissed.contains a.id) := ha
  have h2 := List.of_mem_filter h1
  simpa using h2

/-- Witness for C5 at a concrete input: with announcements ids 1 and 2 and
id 1 dismissed, announcement 2 is exposed and is indeed not dismissed. -/
theorem c5_visible_announcements_witness :
    List.contains [1] (Announcement.id { id := 2, content := "b" }) = false :=
  (c5_visible_announcements
      { state :=
          { announcements :=
              [{ id := 1, content := "a" }, { id := 2, content := "b" }],
            status := .success, error := none },
        dismissed := [1] }
      { announcements :=
          [{ id := 1, content := "a" }, { id := 2, content := "b" }],
        status := .success, error := none }
      Announcements.init).2
    { id := 2, content := "b" } (by decide)

/-- C6: every imperative action method returned by a primitive delegates to
the corresponding controller method with its arguments passed through
unchanged and nothing else: `subscribe(email)` performs exactly
`controller.submit(email)`, `submit(data)` exactly `controller.submit(data)`,
`vote(selectedOptions)` exactly `controller.vote(selectedOptions)`,
`join(email, opts)` exactly `controller.join(email, opts)`, `dismiss(id)`
exactly `controller.dismiss(id)`, each `refresh()` exactly
`controller.fetch()`, each `reset()` exactly `controller.reset()`, and
`hasVoted()` returns exactly `controller.hasVoted()`. -/
theorem c6_actions_delegate :
    (∀ email, Subscribe.subscribe email = [Subscribe.Event.submitCall email])
    ∧ (∀ data, Form.submit data = [Form.Event.submitCall data])
    ∧ (∀ sel, Poll.vote sel = [Poll.Event.voteCall sel])
    ∧ (∀ email opts,
        Waitlist.join email opts = [Waitlist.Event.joinCall email opts])
    ∧ (∀ i, Announcements.dismiss i = [Announcements.Event.dismissCall i])
    ∧ Reactions.refresh = [Reactions.Event.fetchCall]
    ∧ Comments.refresh = [Comments.Event.fetchCall]
    ∧ Views.refresh = [Views.Event.fetchCall]
    ∧ Poll.refresh = [Poll.Event.fetchCall]
    ∧ Announcements.refresh = [Announcements.Event.fetchCall]
    ∧ Subscribe.reset = [Subscribe.Event.resetCall]
    ∧ Form.reset = [Form.Event.resetCall]
    ∧ Waitlist.reset = [Waitlist.Event.resetCall]
    ∧ Feedback.reset = [Feedback.Event.resetCall]
    ∧ (∀ c : Poll.Controller, Poll.hasVoted c = c.hasVoted) :=
  ⟨fun _ => rfl, fun _ => rfl, fun _ => rfl, fun _ _ => rfl, fun _ => rfl,
   rfl, rfl, rfl, rfl, rfl, rfl, rfl, rfl, rfl, fun _ => rfl⟩

/-- C7: every re-exported member of the core library (`fetchPosts`,
`fetchPost`, `getConfigFromMeta`, `resolveConfig`, `DEFAULT_ENDPOINT`,
`API_PATH`) is exported by the adapter identical to the core library's
binding, with no wrapping or modification, for any core module whatsoever. -/
theorem c7_reexports_unchanged :
    ∀ (A B C D E F : Type) (core : CoreModule A B C D E F),
      (solidReExports core).fetchPosts = core.fetchPosts
      ∧ (solidReExports core).fetchPost = core.fetchPost
      ∧ (solidReExports core).getConfigFromMeta = core.getConfigFromMeta
      ∧ (solidReExports core).resolveConfig = core.resolveConfig
      ∧ (solidReExports core).DEFAULT_ENDPOINT = core.DEFAULT_ENDPOINT
      ∧ (solidReExports core).API_PATH = core.API_PATH :=
  fun _ _ _ _ _ _ _ => ⟨rfl, rfl, rfl, rfl, rfl, rfl⟩

/-- C8: before the first controller notification, the accessors of every
primitive yield the fixed defaults: `status()` is `"idle"`, `message()` and
`error()` are `null`, `counts()` is the empty record, `userReactions()`,
`comments()` and `announcements()` are the empty list, `poll()` is `null`,
`position()` is `null`, and `views()` and `uniqueVisitors()` are `0`. -/
theorem c8_initial_defaults :
    (Subscribe.init.status = .idle ∧ Subscribe.init.message = none
      ∧ Subscribe.init.error = none)
    ∧ (Form.init.status = .idle ∧ Form.init.message = none
      ∧ Form.init.error = none)
    ∧ (Reactions.init.counts = [] ∧ Reactions.init.userReactions = []
      ∧ Reactions.init.status = .idle ∧ Reactions.init.error = none)
    ∧ (Comments.init.comments = [] ∧ Comments.init.status = .idle
      ∧ Comments.init.error = none)
    ∧ (Waitlist.init.status = .idle ∧ Waitlist.init.message = none
      ∧ Waitlist.init.position = none ∧ Waitlist.init.error = none)
    ∧ (Views.init.views = 0 ∧ Views.init.uniqueVisitors = 0
      ∧ Views.init.status = .idle ∧ Views.init.error = none)
    ∧ (Feedback.init.status = .idle ∧ Feedback.init.message = none
      ∧ Feedback.init.error = none)
    ∧ (Poll.init.poll = none ∧ Poll.init.status = .idle
      ∧ Poll.init.error = none)
    ∧ (Announcements.init.announcements = []
      ∧ Announcements.init.status = .idle
      ∧ Announcements.init.error = none) := by
  decide

/-- C9: in each auto-triggering primitive the effect subscribes to the
controller strictly before issuing the auto `fetch()`/`record()` call, so
running the effect body against a controller that pushes a state
notification in response to that call always lands the notified state in the
signals, for any starting connection. -/
theorem c9_subscribe_before_auto_fetch :
    (∀ (o : Reactions.Options) (st : Reactions.State)
        (c : Conn Reactions.Signals),
        autoEnabled o.autoFetch = true →
        (runEffectSteps Reactions.Event.subscribeCall
            Reactions.Event.fetchCall
            (Reactions.apply (Reactions.callback st))
            (Reactions.effectBody o) c).sig
          = { counts := st.counts, userReactions := st.userReactions,
              status := st.status, error := st.error })
    ∧ (∀ (o : Comments.Options) (st : Comments.State)
        (c : Conn Comments.Signals),
        autoEnabled o.autoFetch = true →
        (runEffectSteps Comments.Event.subscribeCall
            Comments.Event.fetchCall
            (Comments.apply (Comments.callback st))
            (Comments.effectBody o) c).sig
          = { comments := st.comments, status := st.status,
              error := st.error })
    ∧ (∀ (o : Poll.Options) (st : Poll.State) (c : Conn Poll.Signals),
        autoEnabled o.autoFetch = true →
        (runEffectSteps Poll.Event.subscribeCall Poll.Event.fetchCall
            (Poll.apply (Poll.callback st)) (Poll.effectBody o) c).sig
          = { poll := st.poll, status := st.status, error := st.error })
    ∧ (∀ (o : Announcements.Options) (ctrl : Announcements.Controller)
        (st : Announcements.State) (c : Conn Announcements.Signals),
        autoEnabled o.autoFetch = true →
        (runEffectSteps Announcements.Event.subscribeCall
            Announcements.Event.fetchCall
            (Announcements.apply (Announcements.callback ctrl st))
            (Announcements.effectBody o) c).sig
          = { announcements := ctrl.getVisibleAnnouncements,
              status := st.status, error := st.error })
    ∧ (∀ (o : Views.Options) (st : Views.State) (c : Conn Views.Signals),
        autoEnabled o.autoRecord = true →
        (runEffectSteps Views.Event.subscribeCall Views.Event.recordCall
            (Views.apply (Views.callback st)) (Views.effectBody o) c).sig
          = { views := st.views, uniqueVisitors := st.uniqueVisitors,
              status := st.status, error := st.error }) := by
  refine ⟨?_, ?_, ?_, ?_, ?_⟩
  · rintro ⟨cid, af⟩ st c h
    have hb : Reactions.effectBody ⟨cid, af⟩
        = [.subscribeCall, .fetchCall, .cleanupRegistered] := by
      simp [Reactions.effectBody, h]
    rw [hb]
    rfl
  · rintro ⟨cid, af⟩ st c h
    have hb : Comments.effectBody ⟨cid, af⟩
        = [.subscribeCall, .fetchCall, .cleanupRegistered] := by
      simp [Comments.effectBody, h]
    rw [hb]
    rfl
  · rintro ⟨slug, af⟩ st c h
    have hb : Poll.effectBody ⟨slug, af⟩
        = [.subscribeCall, .fetchCall, .cleanupRegistered] := by
      simp [Poll.effectBody, h]
    rw [hb]
    rfl
  · rintro ⟨af⟩ ctrl st c h
    have hb : Announcements.effectBody ⟨af⟩
        = [.subscribeCall, .fetchCall, .cleanupRegistered] := by
      simp [Announcements.effectBody, h]
    rw [hb]
    rfl
  · rintro ⟨pid, ar⟩ st c h
    have hb : Views.effectBody ⟨pid, ar⟩
        = [.subscribeCall, .recordCall, .cleanupRegistered] := by
      simp [Views.effectBody, h]
    rw [hb]
    rfl

/-- Witness for C9 at a concrete input: `createReactions` with `autoFetch`
omitted, starting unsubscribed from the initial signals, ends the effect run
with the fetched state in its signals. -/
theorem c9_subscribe_before_auto_fetch_witness :
    (runEffectSteps Reactions.Event.subscribeCall Reactions.Event.fetchCall
        (Reactions.apply (Reactions.callback
          { counts := [("like", 2)], userReactions := ["like"],
            status := .success, error := none }))
        (Reactions.effectBody { contentId := "post", autoFetch := none })
        { subscribed := false, sig := Reactions.init }).sig
      = { counts := [("like", 2)], userReactions := ["like"],
          status := .success, error := none } :=
  c9_subscribe_before_auto_fetch.1
    { contentId := "post", autoFetch := none }
    { counts := [("like", 2)], userReactions := ["like"],
      status := .success, error := none }
    { subscribed := false, sig := Reactions.init }
    (by decide)

/-- C10: no imperative action method of any primitive writes any signal:
applying the trace of any action to any signal record leaves it unchanged,
so every visible state change flows through a controller notification
handled by the subscription callback. -/
theorem c10_actions_touch_no_signals :
    (∀ email s, Subscribe.apply (Subscribe.subscribe email) s = s)
    ∧ (∀ s, Subscribe.apply Subscribe.reset s = s)
    ∧ (∀ data s, Form.apply (Form.submit data) s = s)
    ∧ (∀ s, Form.apply Form.reset s = s)
    ∧ (∀ t s, Reactions.apply (Reactions.addReaction t) s = s)
    ∧ (∀ t s, Reactions.apply (Reactions.removeReaction t) s = s)
    ∧ (∀ s, Reactions.apply Reactions.refresh s = s)
    ∧ (∀ a c o s, Comments.apply (Comments.postComment a c o) s = s)
    ∧ (∀ s, Comments.apply Comments.refresh s = s)
    ∧ (∀ e o s, Waitlist.apply (Waitlist.join e o) s = s)
    ∧ (∀ s, Waitlist.apply Waitlist.reset s = s)
    ∧ (∀ s, Views.apply Views.record s = s)
    ∧ (∀ s, Views.apply Views.refresh s = s)
    ∧ (∀ t c o s, Feedback.apply (Feedback.submit t c o) s = s)
    ∧ (∀ s, Feedback.apply Feedback.reset s = s)
    ∧ (∀ sel s, Poll.apply (Poll.vote sel) s = s)
    ∧ (∀ s, Poll.apply Poll.refresh s = s)
    ∧ (∀ i s, Announcements.apply (Announcements.dismiss i) s = s)
    ∧ (∀ s, Announcements.apply Announcements.refresh s = s) :=
  ⟨fun _ _ => rfl, fun _ => rfl, fun _ _ => rfl, fun _ => rfl,
   fun _ _ => rfl, fun _ _ => rfl, fun _ => rfl, fun _ _ _ _ => rfl,
   fun _ => rfl, fun _ _ _ => rfl, fun _ => rfl, fun _ => rfl, fun _ => rfl,
   fun _ _ _ _ => rfl, fun _ => rfl, fun _ _ => rfl, fun _ => rfl,
   fun _ _ => rfl, fun _ => rfl⟩
